import Mathlib

/-!
Shallow embedding of the `locomapper` repository (landmark store and
averaging-based localisation) and proofs of its specification claims.

Python floats are modelled as exact rationals (ℚ); all arithmetic the
claims mention is exactly representable.  The JSON documents produced by
`save`/consumed by `load` are modelled by an inductive `Json` type at the
parsed-document level.
-/

namespace Locomapper

/-- Embeds `GeodeticLandmark` of `data_models.py` (pydantic model, seven fields). -/
structure GeodeticLandmark where
  identifier : String
  latitude_deg : ℚ
  longitude_deg : ℚ
  altitude_m : ℚ
  latitude_uncertainty_deg : ℚ
  longitude_uncertainty_deg : ℚ
  altitude_uncertainty_m : ℚ
deriving Repr, DecidableEq

/-- Embeds `CartesianLandmark` of `data_models.py` (pydantic model, five fields). -/
structure CartesianLandmark where
  identifier : String
  x_m : ℚ
  y_m : ℚ
  z_m : ℚ
  uncertainty_m : ℚ
deriving Repr, DecidableEq

/-- Embeds the `_storage` dict of `landmark_store.py`, `Dict[identifier, Tuple[record, ...]]`,
as an association list in insertion order (a Python dict preserves insertion
order and has pairwise-distinct keys). -/
abbrev Storage (α : Type) : Type := List (String × List α)

/-- The empty storage of a freshly constructed `LandmarkStore`. -/
def Storage.empty (α : Type) : Storage α := []

/-- Embeds `LandmarkStore.get`: `self._storage.get(identifier, ())`. -/
def Storage.get {α : Type} : Storage α → String → List α
  | [], _ => []
  | e :: rest, identifier =>
      if e.1 = identifier then e.2 else Storage.get rest identifier

/-- Embeds `identifier in self._storage` (dict membership test used by `put`). -/
def Storage.containsKey {α : Type} : Storage α → String → Bool
  | [], _ => false
  | e :: rest, identifier =>
      if e.1 = identifier then true else Storage.containsKey rest identifier

/-- Embeds `self._storage[identifier] = existing_data + (datum,)`: replace the value at
an existing key in place (a Python dict update keeps the key position). -/
def Storage.updateKey {α : Type} (identifier : String) (datum : α) :
    Storage α → Storage α
  | [] => []
  | e :: rest =>
      if e.1 = identifier then (e.1, e.2 ++ [datum]) :: rest
      else e :: Storage.updateKey identifier datum rest

/-- Embeds `LandmarkStore.put`: appends `datum` under `datum.identifier` (accessed via
`ident`), creating a one-element tuple for a new key (a new dict key is
appended at the end), and returns the `found_data_flag`. -/
def Storage.put {α : Type} (ident : α → String) (s : Storage α) (datum : α) :
    Storage α × Bool :=
  if Storage.containsKey s (ident datum) then
    (Storage.updateKey (ident datum) datum s, true)
  else
    (s ++ [(ident datum, [datum])], false)

/-- Embeds `LandmarkStore.__len__`: `len(self._storage)`, the number of dict keys. -/
def Storage.size {α : Type} (s : Storage α) : Nat := s.length

/-- Well-formedness invariant of a Python dict: keys are pairwise distinct. -/
def Storage.WF {α : Type} (s : Storage α) : Prop := (s.map Prod.fst).Nodup

instance {α : Type} (s : Storage α) : Decidable s.WF := by
  unfold Storage.WF
  infer_instance

theorem Storage.get_empty {α : Type} (identifier : String) :
    Storage.get (Storage.empty α) identifier = [] := rfl

theorem Storage.containsKey_eq_false_iff {α : Type} (s : Storage α) (k : String) :
    Storage.containsKey s k = false ↔ k ∉ s.map Prod.fst := by
  induction s with
  | nil => simp [Storage.containsKey]
  | cons e rest ih =>
      by_cases h : e.1 = k
      · simp [Storage.containsKey, h]
      · simp only [Storage.containsKey, if_neg h, ih, List.map_cons, List.mem_cons]
        constructor
        · intro hk hor
          rcases hor with h1 | h2
          · exact h h1.symm
          · exact hk h2
        · intro hk h2
          exact hk (Or.inr h2)

theorem Storage.get_eq_nil_of_not_containsKey {α : Type} (s : Storage α)
    (k : String) (h : Storage.containsKey s k = false) : Storage.get s k = [] := by
  induction s with
  | nil => rfl
  | cons e rest ih =>
      by_cases he : e.1 = k
      · simp [Storage.containsKey, he] at h
      · simp only [Storage.containsKey, if_neg he] at h
        simp [Storage.get, he, ih h]

theorem Storage.get_updateKey_same {α : Type} (s : Storage α) (k : String)
    (d : α) (h : Storage.containsKey s k = true) :
    Storage.get (Storage.updateKey k d s) k = Storage.get s k ++ [d] := by
  induction s with
  | nil =>
      simp [Storage.containsKey] at h
  | cons e rest ih =>
      by_cases he : e.1 = k
      · simp [Storage.updateKey, Storage.get, he]
      · simp only [Storage.containsKey, if_neg he] at h
        simp [Storage.updateKey, Storage.get, he, ih h]

theorem Storage.get_updateKey_other {α : Type} (s : Storage α) (k k' : String)
    (d : α) (hne : k' ≠ k) :
    Storage.get (Storage.updateKey k d s) k' = Storage.get s k' := by
  induction s with
  | nil => rfl
  | cons e rest ih =>
      by_cases he : e.1 = k
      · have hkk' : ¬ k = k' := fun hh => hne hh.symm
        simp [Storage.updateKey, Storage.get, he, hkk']
      · by_cases he' : e.1 = k'
        · simp [Storage.updateKey, Storage.get, he, he', hne]
        · simp [Storage.updateKey, Storage.get, he, he', ih]

theorem Storage.get_append_other {α : Type} (s : Storage α) (k k' : String)
    (d : α) (hne : k' ≠ k) :
    Storage.get (s ++ [(k, [d])]) k' = Storage.get s k' := by
  induction s with
  | nil =>
      have hkk' : ¬ k = k' := fun hh => hne hh.symm
      simp [Storage.get, hkk']
  | cons e rest ih =>
      by_cases he : e.1 = k'
      · simp [Storage.get, he]
      · simp [Storage.get, he, ih]

theorem Storage.get_append_self {α : Type} (s : Storage α) (k : String)
    (l : List α) (h : Storage.containsKey s k = false) :
    Storage.get (s ++ [(k, l)]) k = l := by
  induction s with
  | nil => simp [Storage.get]
  | cons e rest ih =>
      simp only [Storage.containsKey] at h
      by_cases he : e.1 = k
      · rw [if_pos he] at h
        exact absurd h (by simp)
      · rw [if_neg he] at h
        simp [Storage.get, he, ih h]

/-- The operation `put` appends to the sequence keyed by the datum's identifier. -/
theorem Storage.get_put_same {α : Type} (ident : α → String) (s : Storage α)
    (d : α) :
    Storage.get (Storage.put ident s d).1 (ident d)
      = Storage.get s (ident d) ++ [d] := by
  unfold Storage.put
  by_cases h : Storage.containsKey s (ident d) = true
  · rw [if_pos h]
    exact Storage.get_updateKey_same s (ident d) d h
  · rw [Bool.not_eq_true] at h
    rw [if_neg (by simp [h])]
    rw [Storage.get_eq_nil_of_not_containsKey s _ h]
    simpa using Storage.get_append_self s (ident d) [d] h

/-- The operation `put` leaves every other key's sequence unchanged. -/
theorem Storage.get_put_other {α : Type} (ident : α → String) (s : Storage α)
    (d : α) (k : String) (hne : k ≠ ident d) :
    Storage.get (Storage.put ident s d).1 k = Storage.get s k := by
  unfold Storage.put
  by_cases h : Storage.containsKey s (ident d) = true
  · rw [if_pos h]
    exact Storage.get_updateKey_other s (ident d) k d hne
  · rw [Bool.not_eq_true] at h
    rw [if_neg (by simp [h])]
    exact Storage.get_append_other s (ident d) k d hne

/-- The flag returned by `put` is exactly prior key membership. -/
theorem Storage.put_flag {α : Type} (ident : α → String) (s : Storage α)
    (d : α) : (Storage.put ident s d).2 = Storage.containsKey s (ident d) := by
  unfold Storage.put
  by_cases h : Storage.containsKey s (ident d) = true
  · rw [if_pos h, h]
  · rw [Bool.not_eq_true] at h
    rw [if_neg (by simp [h]), h]

theorem Storage.updateKey_map_fst {α : Type} (s : Storage α) (k : String)
    (d : α) : (Storage.updateKey k d s).map Prod.fst = s.map Prod.fst := by
  induction s with
  | nil => rfl
  | cons e rest ih =>
      by_cases he : e.1 = k <;> simp [Storage.updateKey, he, ih]

/-- The operation `put` preserves the distinct-keys invariant of the dict. -/
theorem Storage.WF_put {α : Type} (ident : α → String) (s : Storage α) (d : α)
    (h : s.WF) : (Storage.put ident s d).1.WF := by
  unfold Storage.put
  by_cases hc : Storage.containsKey s (ident d) = true
  · rw [if_pos hc]
    unfold Storage.WF at h ⊢
    rw [Storage.updateKey_map_fst]
    exact h
  · rw [Bool.not_eq_true] at hc
    rw [if_neg (by simp [hc])]
    have hk := (Storage.containsKey_eq_false_iff s (ident d)).mp hc
    unfold Storage.WF at h ⊢
    rw [List.map_append]
    simp [List.nodup_append, h, hk]

theorem Storage.size_updateKey {α : Type} (s : Storage α) (k : String)
    (d : α) : Storage.size (Storage.updateKey k d s) = Storage.size s := by
  induction s with
  | nil => rfl
  | cons e rest ih =>
      by_cases he : e.1 = k <;>
        simp_all [Storage.updateKey, Storage.size, he]

/-- A `put` at an existing key does not change the number of keys. -/
theorem Storage.size_put_existing {α : Type} (ident : α → String)
    (s : Storage α) (d : α) (h : Storage.containsKey s (ident d) = true) :
    Storage.size (Storage.put ident s d).1 = Storage.size s := by
  unfold Storage.put
  rw [if_pos h]
  exact Storage.size_updateKey s (ident d) d

/-- Embeds `GlobalLocalisation` of `localisation.py`, wrapping a `LandmarkStore(GeodeticLandmark)`. -/
structure GlobalLocalisation where
  _store : Storage GeodeticLandmark

/-- Embeds `GlobalLocalisation.__init__`: fresh engine with an empty store. -/
def GlobalLocalisation.init : GlobalLocalisation :=
  ⟨Storage.empty GeodeticLandmark⟩

/-- Embeds `GlobalLocalisation.add_data`, with every parameter explicit. -/
def GlobalLocalisation.add_data (g : GlobalLocalisation) (identifier : String)
    (latitude_deg longitude_deg altitude_m : ℚ)
    (latitude_uncertainty_deg longitude_uncertainty_deg altitude_uncertainty_m : ℚ) :
    GlobalLocalisation :=
  ⟨(Storage.put (fun l => l.identifier) g._store
      { identifier := identifier
        latitude_deg := latitude_deg
        longitude_deg := longitude_deg
        altitude_m := altitude_m
        latitude_uncertainty_deg := latitude_uncertainty_deg
        longitude_uncertainty_deg := longitude_uncertainty_deg
        altitude_uncertainty_m := altitude_uncertainty_m }).1⟩

/-- Embeds `GlobalLocalisation.add_data` called with the default uncertainties
(`1e-6`, `1e-6`, `10.0`). -/
def GlobalLocalisation.add_data_default (g : GlobalLocalisation)
    (identifier : String) (latitude_deg longitude_deg altitude_m : ℚ) :
    GlobalLocalisation :=
  g.add_data identifier latitude_deg longitude_deg altitude_m
    (1 / 1000000) (1 / 1000000) 10

/-- Embeds `GlobalLocalisation.get_data`: passthrough to the store's `get`. -/
def GlobalLocalisation.get_data (g : GlobalLocalisation) (identifier : String) :
    List GeodeticLandmark :=
  Storage.get g._store identifier

/-- Embeds `GlobalLocalisation.__len__`: passthrough to `len(self._store)`. -/
def GlobalLocalisation.size (g : GlobalLocalisation) : Nat :=
  Storage.size g._store

/-- Embeds `GlobalLocalisation.localise`: return `None` on an empty record tuple,
otherwise accumulate the three coordinate fields over one loop and divide
each accumulator by the record count; uncertainties are the fixed defaults. -/
def GlobalLocalisation.localise (g : GlobalLocalisation) (identifier : String) :
    Option GeodeticLandmark :=
  let landmark_tuple := g.get_data identifier
  if landmark_tuple.length = 0 then
    none
  else
    let acc := landmark_tuple.foldl
      (fun (acc : ℚ × ℚ × ℚ) landmark =>
        (acc.1 + landmark.latitude_deg, acc.2.1 + landmark.longitude_deg,
          acc.2.2 + landmark.altitude_m))
      (0, 0, 0)
    some
      { identifier := identifier
        latitude_deg := acc.1 / landmark_tuple.length
        longitude_deg := acc.2.1 / landmark_tuple.length
        altitude_m := acc.2.2 / landmark_tuple.length
        latitude_uncertainty_deg := 1 / 1000000
        longitude_uncertainty_deg := 1 / 1000000
        altitude_uncertainty_m := 10 }

/-- Embeds `CartesianLocalisation` of `localisation.py`, wrapping a `LandmarkStore(CartesianLandmark)`. -/
structure CartesianLocalisation where
  _store : Storage CartesianLandmark

/-- Embeds `CartesianLocalisation.__init__`: fresh engine with an empty store. -/
def CartesianLocalisation.init : CartesianLocalisation :=
  ⟨Storage.empty CartesianLandmark⟩

/-- Embeds `CartesianLocalisation.add_data`, with every parameter explicit. -/
def CartesianLocalisation.add_data (c : CartesianLocalisation)
    (identifier : String) (x_m y_m z_m uncertainty_m : ℚ) :
    CartesianLocalisation :=
  ⟨(Storage.put (fun l => l.identifier) c._store
      { identifier := identifier, x_m := x_m, y_m := y_m, z_m := z_m
        uncertainty_m := uncertainty_m }).1⟩

/-- Embeds `CartesianLocalisation.add_data` called with the default uncertainty (`0.1`). -/
def CartesianLocalisation.add_data_default (c : CartesianLocalisation)
    (identifier : String) (x_m y_m z_m : ℚ) : CartesianLocalisation :=
  c.add_data identifier x_m y_m z_m (1 / 10)

/-- Embeds `CartesianLocalisation.get_data`: passthrough to the store's `get`. -/
def CartesianLocalisation.get_data (c : CartesianLocalisation)
    (identifier : String) : List CartesianLandmark :=
  Storage.get c._store identifier

/-- Embeds `CartesianLocalisation.__len__`: passthrough to `len(self._store)`. -/
def CartesianLocalisation.size (c : CartesianLocalisation) : Nat :=
  Storage.size c._store

/-- Embeds `CartesianLocalisation.localise`: same shape as the geodetic variant. -/
def CartesianLocalisation.localise (c : CartesianLocalisation)
    (identifier : String) : Option CartesianLandmark :=
  let landmark_tuple := c.get_data identifier
  if landmark_tuple.length = 0 then
    none
  else
    let acc := landmark_tuple.foldl
      (fun (acc : ℚ × ℚ × ℚ) landmark =>
        (acc.1 + landmark.x_m, acc.2.1 + landmark.y_m, acc.2.2 + landmark.z_m))
      (0, 0, 0)
    some
      { identifier := identifier
        x_m := acc.1 / landmark_tuple.length
        y_m := acc.2.1 / landmark_tuple.length
        z_m := acc.2.2 / landmark_tuple.length
        uncertainty_m := 1 / 10 }

/-- Embeds `WifiGlobalLocalisation.localise_wifi` of `wifi_gps.py` / `wifi_ipinfo.py`.
The MD5-based `hash_wifi` helper calls into `hashlib`; it is taken as an
abstract function parameter `hash_wifi : ssid → mac → identifier`. -/
def WifiGlobalLocalisation.localise_wifi (hash_wifi : String → String → String)
    (g : GlobalLocalisation) (ssid mac : String) : Option GeodeticLandmark :=
  g.localise (hash_wifi ssid mac)

/-- Embeds `WifiGlobalLocalisation.localise_multiple`: one loop accumulates the three
coordinates over the landmarks that resolve (skipping `None`), then each
accumulator is divided by `len(wifi_tuple)` — the original input count.  When
`len(wifi_tuple)` is `0`, Python raises `ZeroDivisionError` at the first
division, modelled as `Except.error`. -/
def WifiGlobalLocalisation.localise_multiple
    (hash_wifi : String → String → String) (g : GlobalLocalisation)
    (wifi_tuple : List (String × String)) : Except String (ℚ × ℚ × ℚ) :=
  let acc := wifi_tuple.foldl
    (fun (acc : ℚ × ℚ × ℚ) p =>
      match WifiGlobalLocalisation.localise_wifi hash_wifi g p.1 p.2 with
      | some landmark =>
          (acc.1 + landmark.latitude_deg, acc.2.1 + landmark.longitude_deg,
            acc.2.2 + landmark.altitude_m)
      | none => acc)
    (0, 0, 0)
  if wifi_tuple.length = 0 then
    Except.error "ZeroDivisionError: float division by zero"
  else
    Except.ok (acc.1 / wifi_tuple.length, acc.2.1 / wifi_tuple.length,
      acc.2.2 / wifi_tuple.length)

/-- A parsed JSON document, as produced by `json.load` / consumed by
`json.dump` (floats as exact rationals). -/
inductive Json where
  | str : String → Json
  | num : ℚ → Json
  | bool : Bool → Json
  | null : Json
  | arr : List Json → Json
  | obj : List (String × Json) → Json

/-- Key lookup in a parsed JSON object (a Python dict has unique keys). -/
def Json.getField (fields : List (String × Json)) (name : String) : Option Json :=
  match fields with
  | [] => none
  | e :: rest => if e.1 = name then some e.2 else Json.getField rest name

/-- Pydantic validation of a `str` field: the value must be a JSON string. -/
def Json.asStr : Json → Except String String
  | Json.str s => Except.ok s
  | _ => Except.error "validation error: str type expected"

/-- Modelled from the spec: pydantic validation of a `float` field — the spec
requires `load` to fail when a value does not match the declared field type,
so a `float` field accepts exactly a JSON number. -/
def Json.asNum : Json → Except String ℚ
  | Json.num q => Except.ok q
  | _ => Except.error "validation error: float type expected"

/-- Modelled from the spec: pydantic's required-field check — constructing a
model with a field absent from the keyword dict fails validation. -/
def Json.reqField (fields : List (String × Json)) (name : String) :
    Except String Json :=
  match Json.getField fields name with
  | some j => Except.ok j
  | none => Except.error ("validation error: field required: " ++ name)

/-- Embeds `model.dict()` for a `GeodeticLandmark`, fields in declaration order. -/
def encodeGeodetic (landmark : GeodeticLandmark) : Json :=
  Json.obj
    [("identifier", Json.str landmark.identifier),
      ("latitude_deg", Json.num landmark.latitude_deg),
      ("longitude_deg", Json.num landmark.longitude_deg),
      ("altitude_m", Json.num landmark.altitude_m),
      ("latitude_uncertainty_deg", Json.num landmark.latitude_uncertainty_deg),
      ("longitude_uncertainty_deg", Json.num landmark.longitude_uncertainty_deg),
      ("altitude_uncertainty_m", Json.num landmark.altitude_uncertainty_m)]

/-- Embeds `GeodeticLandmark(**model_dict)`: validate each declared field out of the
parsed record object (extra keys are ignored, missing keys fail). -/
def decodeGeodetic (j : Json) : Except String GeodeticLandmark := do
  match j with
  | Json.obj fields =>
      let identifier ← Json.asStr (← Json.reqField fields "identifier")
      let latitude_deg ← Json.asNum (← Json.reqField fields "latitude_deg")
      let longitude_deg ← Json.asNum (← Json.reqField fields "longitude_deg")
      let altitude_m ← Json.asNum (← Json.reqField fields "altitude_m")
      let latitude_uncertainty_deg ←
        Json.asNum (← Json.reqField fields "latitude_uncertainty_deg")
      let longitude_uncertainty_deg ←
        Json.asNum (← Json.reqField fields "longitude_uncertainty_deg")
      let altitude_uncertainty_m ←
        Json.asNum (← Json.reqField fields "altitude_uncertainty_m")
      pure
        { identifier := identifier
          latitude_deg := latitude_deg
          longitude_deg := longitude_deg
          altitude_m := altitude_m
          latitude_uncertainty_deg := latitude_uncertainty_deg
          longitude_uncertainty_deg := longitude_uncertainty_deg
          altitude_uncertainty_m := altitude_uncertainty_m }
  | _ => Except.error "validation error: dict expected"

/-- Embeds `model.dict()` for a `CartesianLandmark`, fields in declaration order. -/
def encodeCartesian (landmark : CartesianLandmark) : Json :=
  Json.obj
    [("identifier", Json.str landmark.identifier),
      ("x_m", Json.num landmark.x_m),
      ("y_m", Json.num landmark.y_m),
      ("z_m", Json.num landmark.z_m),
      ("uncertainty_m", Json.num landmark.uncertainty_m)]

/-- Embeds `CartesianLandmark(**model_dict)`: validate each declared field. -/
def decodeCartesian (j : Json) : Except String CartesianLandmark := do
  match j with
  | Json.obj fields =>
      let identifier ← Json.asStr (← Json.reqField fields "identifier")
      let x_m ← Json.asNum (← Json.reqField fields "x_m")
      let y_m ← Json.asNum (← Json.reqField fields "y_m")
      let z_m ← Json.asNum (← Json.reqField fields "z_m")
      let uncertainty_m ← Json.asNum (← Json.reqField fields "uncertainty_m")
      pure
        { identifier := identifier, x_m := x_m, y_m := y_m, z_m := z_m
          uncertainty_m := uncertainty_m }
  | _ => Except.error "validation error: dict expected"

/-- Effectful map over a list: the comprehension
`tuple(self.data_model(**d) for d in models_list)`, which propagates the first
validation failure. -/
def mapE {α β : Type} (f : α → Except String β) : List α → Except String (List β)
  | [] => Except.ok []
  | a :: as => do
      let b ← f a
      let bs ← mapE f as
      pure (b :: bs)

/-- Embeds `LandmarkStore.save`, at the document level: the `serializable_data` dict
comprehension mapping `str(identifier)` to `[model.dict() for model in
models_tuple]` (`str` is the identity on the string identifiers; the file
write and the `mkdir` of parent directories are I/O outside the embedding). -/
def Storage.save {α : Type} (encode : α → Json) (s : Storage α) : Json :=
  Json.obj (s.map (fun e => (e.1, Json.arr (e.2.map encode))))

/-- One value of the loaded JSON object: must be an array of record objects. -/
def decodeRecordList {α : Type} (decode : Json → Except String α) :
    Json → Except String (List α)
  | Json.arr items => mapE decode items
  | _ => Except.error "TypeError: list of record objects expected"

/-- The dict comprehension in `LandmarkStore.load` that rebuilds `_storage`
from the parsed document. -/
def parseStorage {α : Type} (decode : Json → Except String α) (j : Json) :
    Except String (Storage α) :=
  match j with
  | Json.obj entries =>
      mapE
        (fun e => do
          let recs ← decodeRecordList decode e.2
          pure (e.1, recs))
        entries
  | _ => Except.error "AttributeError: parsed document is not a dict"

/-- Modelled from the spec: `open(load_path)` + `json.load` — a missing,
unreadable, or malformed-JSON file yields a propagated error (`none`); a
readable well-formed file yields its parsed document. -/
def readJson (file : Option Json) : Except String Json :=
  match file with
  | some j => Except.ok j
  | none => Except.error "I/O error or malformed JSON"

/-- Embeds `LandmarkStore.load`: read and parse the file, rebuild the whole mapping
(the previous storage `s` is discarded on success and untouched on failure,
since `self._storage` is assigned only after the comprehension completes),
and return `len(self._storage)`. -/
def Storage.load {α : Type} (decode : Json → Except String α) (_s : Storage α)
    (file : Option Json) : Except String (Nat × Storage α) := do
  let raw_data ← readJson file
  let m ← parseStorage decode raw_data
  pure (Storage.size m, m)

/-- Embeds `GlobalLocalisation.get_data` as a state transformer: the method body only
reads `self._store`, so the post-state equals the pre-state. -/
def GlobalLocalisation.get_data_op (g : GlobalLocalisation)
    (identifier : String) : List GeodeticLandmark × GlobalLocalisation :=
  (g.get_data identifier, g)

/-- Embeds `GlobalLocalisation.localise` as a state transformer: the method body only
reads `self._store`, so the post-state equals the pre-state. -/
def GlobalLocalisation.localise_op (g : GlobalLocalisation)
    (identifier : String) : Option GeodeticLandmark × GlobalLocalisation :=
  (g.localise identifier, g)

/-- Embeds `LandmarkStore.save` as a state transformer: it only reads `_storage`. -/
def Storage.save_op {α : Type} (encode : α → Json) (s : Storage α) :
    Json × Storage α :=
  (Storage.save encode s, s)

/-- The landmarks that resolve in `localise_multiple`, in input order: the
spec's "landmarks that did resolve" (identifiers with no stored data are
discarded). -/
def resolvedLandmarks (hash_wifi : String → String → String)
    (g : GlobalLocalisation) (wifi_tuple : List (String × String)) :
    List GeodeticLandmark :=
  wifi_tuple.filterMap
    (fun p => WifiGlobalLocalisation.localise_wifi hash_wifi g p.1 p.2)

/-- A concrete stand-in for the MD5-based `hash_wifi` (which is abstract in
the embedding): plain concatenation of SSID and MAC. -/
def hashConcat (ssid mac : String) : String := ssid ++ mac

/-- Concrete store with one geodetic record at latitude 2, longitude 2,
altitude 2 under identifier "am", used in counterexamples and witnesses. -/
def exampleWifiStore : GlobalLocalisation :=
  GlobalLocalisation.init.add_data_default "am" 2 2 2

theorem mapE_map_of_inverse {α β : Type} (f : β → Except String α) (g : α → β)
    (h : ∀ a, f (g a) = Except.ok a) (l : List α) :
    mapE f (l.map g) = Except.ok l := by
  induction l with
  | nil => rfl
  | cons a as ih =>
      simp [mapE, h, ih, Bind.bind, Except.bind, Pure.pure, Except.pure]

theorem decodeGeodetic_encodeGeodetic (landmark : GeodeticLandmark) :
    decodeGeodetic (encodeGeodetic landmark) = Except.ok landmark := rfl

theorem decodeCartesian_encodeCartesian (landmark : CartesianLandmark) :
    decodeCartesian (encodeCartesian landmark) = Except.ok landmark := rfl

theorem parseStorage_save {α : Type} (decode : Json → Except String α)
    (encode : α → Json) (h : ∀ a, decode (encode a) = Except.ok a)
    (s : Storage α) :
    parseStorage decode (Storage.save encode s) = Except.ok s := by
  unfold Storage.save parseStorage
  refine mapE_map_of_inverse _ (fun e => (e.1, Json.arr (e.2.map encode))) ?_ s
  intro e
  simp [decodeRecordList, mapE_map_of_inverse decode encode h e.2, Bind.bind,
    Except.bind, Pure.pure, Except.pure]

theorem foldl_geodetic_sum (l : List GeodeticLandmark) (a b c : ℚ) :
    l.foldl
      (fun (acc : ℚ × ℚ × ℚ) landmark =>
        (acc.1 + landmark.latitude_deg, acc.2.1 + landmark.longitude_deg,
          acc.2.2 + landmark.altitude_m)) (a, b, c)
    = (a + (l.map (fun x => x.latitude_deg)).sum,
        b + (l.map (fun x => x.longitude_deg)).sum,
        c + (l.map (fun x => x.altitude_m)).sum) := by
  induction l generalizing a b c with
  | nil => simp
  | cons x xs ih => simp [ih, add_assoc]

theorem foldl_cartesian_sum (l : List CartesianLandmark) (a b c : ℚ) :
    l.foldl
      (fun (acc : ℚ × ℚ × ℚ) landmark =>
        (acc.1 + landmark.x_m, acc.2.1 + landmark.y_m, acc.2.2 + landmark.z_m))
      (a, b, c)
    = (a + (l.map (fun x => x.x_m)).sum,
        b + (l.map (fun x => x.y_m)).sum,
        c + (l.map (fun x => x.z_m)).sum) := by
  induction l generalizing a b c with
  | nil => simp
  | cons x xs ih => simp [ih, add_assoc]

theorem foldl_wifi_sum (hash_wifi : String → String → String)
    (g : GlobalLocalisation) (pairs : List (String × String)) (a b c : ℚ) :
    pairs.foldl
      (fun (acc : ℚ × ℚ × ℚ) p =>
        match WifiGlobalLocalisation.localise_wifi hash_wifi g p.1 p.2 with
        | some landmark =>
            (acc.1 + landmark.latitude_deg, acc.2.1 + landmark.longitude_deg,
              acc.2.2 + landmark.altitude_m)
        | none => acc) (a, b, c)
    = (a + ((resolvedLandmarks hash_wifi g pairs).map
          (fun x => x.latitude_deg)).sum,
        b + ((resolvedLandmarks hash_wifi g pairs).map
          (fun x => x.longitude_deg)).sum,
        c + ((resolvedLandmarks hash_wifi g pairs).map
          (fun x => x.altitude_m)).sum) := by
  induction pairs generalizing a b c with
  | nil => simp [resolvedLandmarks]
  | cons p ps ih =>
      cases hp : WifiGlobalLocalisation.localise_wifi hash_wifi g p.1 p.2 with
      | some landmark =>
          simp [resolvedLandmarks, List.filterMap_cons, hp, ih, add_assoc]
      | none =>
          simp [resolvedLandmarks, List.filterMap_cons, hp, ih]

theorem Storage.containsKey_put_self {α : Type} (ident : α → String)
    (s : Storage α) (d : α) :
    Storage.containsKey (Storage.put ident s d).1 (ident d) = true := by
  by_cases h : Storage.containsKey (Storage.put ident s d).1 (ident d) = true
  · exact h
  · exfalso
    rw [Bool.not_eq_true, Storage.containsKey_eq_false_iff] at h
    unfold Storage.put at h
    by_cases hc : Storage.containsKey s (ident d) = true
    · rw [if_pos hc] at h
      simp only [Storage.updateKey_map_fst] at h
      rw [← Storage.containsKey_eq_false_iff] at h
      rw [hc] at h
      exact Bool.true_eq_false.mp h
    · rw [Bool.not_eq_true] at hc
      rw [if_neg (by simp [hc])] at h
      simp [List.map_append] at h

/-- Concrete store used by witnesses: one geodetic record under "W" with
integer coordinates and explicit integer uncertainties. -/
def witnessStore : GlobalLocalisation :=
  GlobalLocalisation.init.add_data "W" 1 2 3 0 0 5

/-- C1: for every identifier with at least one stored record, `localise`
returns the per-field unweighted arithmetic mean (sum divided by count) of
the positional coordinates over the stored records, with the uncertainty
fields reset to the fixed defaults (1e-6/1e-6/10.0 geodetic, 0.1 Cartesian)
regardless of stored uncertainties; in particular, after adding geodetic
records (0,0,0) and (2,4,6) under "A", `localise "A"` is (1, 2, 3) with
uncertainties (1e-6, 1e-6, 10.0). -/
theorem C1_localise_is_unweighted_mean :
    (∀ (g : GlobalLocalisation) (identifier : String),
      g.get_data identifier ≠ [] →
      g.localise identifier = some
        { identifier := identifier
          latitude_deg := ((g.get_data identifier).map (fun x => x.latitude_deg)).sum
            / ((g.get_data identifier).length : ℚ)
          longitude_deg := ((g.get_data identifier).map (fun x => x.longitude_deg)).sum
            / ((g.get_data identifier).length : ℚ)
          altitude_m := ((g.get_data identifier).map (fun x => x.altitude_m)).sum
            / ((g.get_data identifier).length : ℚ)
          latitude_uncertainty_deg := 1 / 1000000
          longitude_uncertainty_deg := 1 / 1000000
          altitude_uncertainty_m := 10 })
    ∧ (∀ (c : CartesianLocalisation) (identifier : String),
      c.get_data identifier ≠ [] →
      c.localise identifier = some
        { identifier := identifier
          x_m := ((c.get_data identifier).map (fun x => x.x_m)).sum
            / ((c.get_data identifier).length : ℚ)
          y_m := ((c.get_data identifier).map (fun x => x.y_m)).sum
            / ((c.get_data identifier).length : ℚ)
          z_m := ((c.get_data identifier).map (fun x => x.z_m)).sum
            / ((c.get_data identifier).length : ℚ)
          uncertainty_m := 1 / 10 })
    ∧ ((GlobalLocalisation.init.add_data_default "A" 0 0 0).add_data_default
        "A" 2 4 6).localise "A" = some
        { identifier := "A"
          latitude_deg := 1
          longitude_deg := 2
          altitude_m := 3
          latitude_uncertainty_deg := 1 / 1000000
          longitude_uncertainty_deg := 1 / 1000000
          altitude_uncertainty_m := 10 } := by
  refine ⟨?_, ?_, ?_⟩
  · intro g identifier h
    have hlen : ¬ (g.get_data identifier).length = 0 := by
      simpa [List.length_eq_zero] using h
    simp only [GlobalLocalisation.localise, if_neg hlen, foldl_geodetic_sum,
      zero_add]
  · intro c identifier h
    have hlen : ¬ (c.get_data identifier).length = 0 := by
      simpa [List.length_eq_zero] using h
    simp only [CartesianLocalisation.localise, if_neg hlen, foldl_cartesian_sum,
      zero_add]
  · norm_num [GlobalLocalisation.localise, GlobalLocalisation.get_data,
      GlobalLocalisation.add_data_default, GlobalLocalisation.add_data,
      GlobalLocalisation.init, Storage.put, Storage.containsKey, Storage.empty,
      Storage.get, Storage.updateKey]

/-- C1 witness: the geodetic part of C1 applied to the concrete store holding
one record (1, 2, 3) under "W". -/
theorem C1_witness :
    witnessStore.get_data "W" ≠ []
    ∧ witnessStore.localise "W" = some
        { identifier := "W"
          latitude_deg := ((witnessStore.get_data "W").map (fun x => x.latitude_deg)).sum
            / ((witnessStore.get_data "W").length : ℚ)
          longitude_deg := ((witnessStore.get_data "W").map (fun x => x.longitude_deg)).sum
            / ((witnessStore.get_data "W").length : ℚ)
          altitude_m := ((witnessStore.get_data "W").map (fun x => x.altitude_m)).sum
            / ((witnessStore.get_data "W").length : ℚ)
          latitude_uncertainty_deg := 1 / 1000000
          longitude_uncertainty_deg := 1 / 1000000
          altitude_uncertainty_m := 10 } :=
  ⟨by decide, C1_localise_is_unweighted_mean.1 witnessStore "W" (by decide)⟩

/-- C2 counterexample: with one resolving pair (latitude 2) and one
non-resolving pair, `localise_multiple` returns latitude 1 (sum divided by
the original input count 2), not the average 2 over the landmarks that did
resolve, so the claim's "average across the landmarks that did resolve" is
false as stated. -/
theorem C2_counterexample_mixed_resolution :
    WifiGlobalLocalisation.localise_multiple hashConcat exampleWifiStore
      [("a", "m"), ("b", "n")] = Except.ok (1, 1, 1)
    ∧ ((resolvedLandmarks hashConcat exampleWifiStore [("a", "m"), ("b", "n")]).map
        (fun x => x.latitude_deg)).sum
      / ((resolvedLandmarks hashConcat exampleWifiStore [("a", "m"), ("b", "n")]).length : ℚ)
        = 2
    ∧ (1 : ℚ) ≠ 2 := by
  have ham : exampleWifiStore.localise "am" = some
      { identifier := "am"
        latitude_deg := 2
        longitude_deg := 2
        altitude_m := 2
        latitude_uncertainty_deg := 1 / 1000000
        longitude_uncertainty_deg := 1 / 1000000
        altitude_uncertainty_m := 10 } := by
    simp [GlobalLocalisation.localise, GlobalLocalisation.get_data,
      exampleWifiStore, GlobalLocalisation.add_data_default,
      GlobalLocalisation.add_data, GlobalLocalisation.init, Storage.put,
      Storage.containsKey, Storage.empty, Storage.get]
  have hbn : exampleWifiStore.localise "bn" = none := rfl
  have hh : hashConcat "a" "m" = "am" := rfl
  have hh2 : hashConcat "b" "n" = "bn" := rfl
  refine ⟨?_, ?_, by norm_num⟩
  · norm_num [WifiGlobalLocalisation.localise_multiple,
      WifiGlobalLocalisation.localise_wifi, hh, hh2, ham, hbn]
  · norm_num [resolvedLandmarks, WifiGlobalLocalisation.localise_wifi,
      List.filterMap_cons, hh, hh2, ham, hbn]

/-- C2 (amended): `localise_multiple` sums the coordinate estimates over the
landmarks that resolve (skipping identifiers with no stored data) but always
divides by the original input count, even when only some identifiers
resolve; on an empty input sequence the division divisor is zero and the
operation fails (ZeroDivisionError). -/
theorem C2_localise_multiple_divides_by_input_count :
    (∀ (hash_wifi : String → String → String) (g : GlobalLocalisation)
      (wifi_tuple : List (String × String)),
      wifi_tuple ≠ [] →
      WifiGlobalLocalisation.localise_multiple hash_wifi g wifi_tuple
        = Except.ok
          (((resolvedLandmarks hash_wifi g wifi_tuple).map
              (fun x => x.latitude_deg)).sum / (wifi_tuple.length : ℚ),
            ((resolvedLandmarks hash_wifi g wifi_tuple).map
              (fun x => x.longitude_deg)).sum / (wifi_tuple.length : ℚ),
            ((resolvedLandmarks hash_wifi g wifi_tuple).map
              (fun x => x.altitude_m)).sum / (wifi_tuple.length : ℚ)))
    ∧ (∀ (hash_wifi : String → String → String) (g : GlobalLocalisation),
      WifiGlobalLocalisation.localise_multiple hash_wifi g []
        = Except.error "ZeroDivisionError: float division by zero") := by
  constructor
  · intro hash_wifi g wifi_tuple h
    have hlen : ¬ wifi_tuple.length = 0 := by
      simpa [List.length_eq_zero] using h
    simp only [WifiGlobalLocalisation.localise_multiple, if_neg hlen,
      foldl_wifi_sum, zero_add]
  · intro hash_wifi g
    rfl

/-- C2 witness: the amended C2 applied at the mixed-resolution input. -/
theorem C2_witness :
    ([("a", "m"), ("b", "n")] : List (String × String)) ≠ []
    ∧ WifiGlobalLocalisation.localise_multiple hashConcat exampleWifiStore
        [("a", "m"), ("b", "n")]
      = Except.ok
        (((resolvedLandmarks hashConcat exampleWifiStore [("a", "m"), ("b", "n")]).map
            (fun x => x.latitude_deg)).sum
          / (([("a", "m"), ("b", "n")] : List (String × String)).length : ℚ),
          ((resolvedLandmarks hashConcat exampleWifiStore [("a", "m"), ("b", "n")]).map
            (fun x => x.longitude_deg)).sum
          / (([("a", "m"), ("b", "n")] : List (String × String)).length : ℚ),
          ((resolvedLandmarks hashConcat exampleWifiStore [("a", "m"), ("b", "n")]).map
            (fun x => x.altitude_m)).sum
          / (([("a", "m"), ("b", "n")] : List (String × String)).length : ℚ)) :=
  ⟨by decide,
    C2_localise_multiple_divides_by_input_count.1 hashConcat exampleWifiStore
      [("a", "m"), ("b", "n")] (by decide)⟩

/-- C3 (code-bug evaluation): `localise` does guard the empty case (absent on
an unknown identifier), but `localise_multiple` on an empty input sequence
divides the accumulators by `len(wifi_tuple) = 0`, raising
`ZeroDivisionError` — a division by zero is reached, contrary to the claim. -/
theorem C3_empty_input_reaches_division_by_zero :
    WifiGlobalLocalisation.localise_multiple hashConcat GlobalLocalisation.init []
      = Except.error "ZeroDivisionError: float division by zero"
    ∧ GlobalLocalisation.init.localise "B" = none :=
  ⟨rfl, rfl⟩

/-- C4: `put(record)` appends the record to the sequence keyed by its
identifier (a one-element sequence for a new identifier, appended at the end
of the existing sequence otherwise), and returns true exactly when the
identifier existed prior to the call — and from then on the identifier
exists, so every later `put` under it returns true. -/
theorem C4_put_appends_and_reports_prior_existence :
    ∀ {α : Type} (ident : α → String) (s : Storage α) (d : α),
      Storage.get (Storage.put ident s d).1 (ident d)
        = Storage.get s (ident d) ++ [d]
      ∧ (Storage.put ident s d).2 = Storage.containsKey s (ident d)
      ∧ Storage.containsKey (Storage.put ident s d).1 (ident d) = true := by
  intro α ident s d
  exact ⟨Storage.get_put_same ident s d, Storage.put_flag ident s d,
    Storage.containsKey_put_self ident s d⟩

/-- C5: saving a store and loading the document into a fresh store of the
same record variant reproduces the same mapping exactly (same identifiers,
same records in the same order), for both variants. -/
theorem C5_save_load_round_trip :
    (∀ s : Storage GeodeticLandmark,
      Storage.load decodeGeodetic (Storage.empty GeodeticLandmark)
        (some (Storage.save encodeGeodetic s)) = Except.ok (Storage.size s, s))
    ∧ (∀ s : Storage CartesianLandmark,
      Storage.load decodeCartesian (Storage.empty CartesianLandmark)
        (some (Storage.save encodeCartesian s)) = Except.ok (Storage.size s, s)) := by
  constructor
  · intro s
    simp [Storage.load, readJson,
      parseStorage_save decodeGeodetic encodeGeodetic decodeGeodetic_encodeGeodetic s,
      Bind.bind, Except.bind, Pure.pure, Except.pure]
  · intro s
    simp [Storage.load, readJson,
      parseStorage_save decodeCartesian encodeCartesian decodeCartesian_encodeCartesian s,
      Bind.bind, Except.bind, Pure.pure, Except.pure]

/-- C6: `load` replaces the store's entire previous contents with the parsed
mapping (the result does not depend on the previous storage) and returns the
number of distinct identifiers loaded; a missing/unreadable/malformed file
propagates an error, and a record object of the wrong variant (Cartesian
fields for a geodetic store, or vice versa) fails validation with a
required-field error rather than being coerced. -/
theorem C6_load_replaces_and_validates :
    (∀ (prev : Storage GeodeticLandmark) (doc : Json) (m : Storage GeodeticLandmark),
      parseStorage decodeGeodetic doc = Except.ok m →
      Storage.load decodeGeodetic prev (some doc) = Except.ok (Storage.size m, m))
    ∧ (∀ prev : Storage GeodeticLandmark,
      Storage.load decodeGeodetic prev none
        = Except.error "I/O error or malformed JSON")
    ∧ (∀ c : CartesianLandmark,
      decodeGeodetic (encodeCartesian c)
        = Except.error "validation error: field required: latitude_deg")
    ∧ (∀ g : GeodeticLandmark,
      decodeCartesian (encodeGeodetic g)
        = Except.error "validation error: field required: x_m") := by
  refine ⟨?_, fun prev => rfl, fun c => rfl, fun g => rfl⟩
  intro prev doc m h
  simp [Storage.load, readJson, h, Bind.bind, Except.bind, Pure.pure,
    Except.pure]

/-- C6 witness: loading an empty document into a non-empty geodetic store
yields the empty mapping and count 0. -/
theorem C6_witness :
    parseStorage decodeGeodetic (Json.obj []) = Except.ok []
    ∧ Storage.load decodeGeodetic [("old", [])] (some (Json.obj []))
        = Except.ok (Storage.size ([] : Storage GeodeticLandmark), []) :=
  ⟨rfl, C6_load_replaces_and_validates.1 [("old", [])] (Json.obj []) [] rfl⟩

/-- C7: a missing identifier is never an error — `get` on any unknown
identifier of a fresh store returns the empty sequence, and `localise` on an
identifier with no stored records returns absent, for both engines. -/
theorem C7_not_found_is_not_an_error :
    (∀ (α : Type) (identifier : String),
      Storage.get (Storage.empty α) identifier = [])
    ∧ (∀ (g : GlobalLocalisation) (identifier : String),
      g.get_data identifier = [] → g.localise identifier = none)
    ∧ (∀ (c : CartesianLocalisation) (identifier : String),
      c.get_data identifier = [] → c.localise identifier = none) := by
  refine ⟨fun α identifier => rfl, ?_, ?_⟩
  · intro g identifier h
    simp [GlobalLocalisation.localise, h]
  · intro c identifier h
    simp [CartesianLocalisation.localise, h]

/-- C7 witness: a fresh engine localises an unknown identifier to absent. -/
theorem C7_witness :
    GlobalLocalisation.init.get_data "unknown" = []
    ∧ GlobalLocalisation.init.localise "unknown" = none :=
  ⟨rfl, C7_not_found_is_not_an_error.2.1 GlobalLocalisation.init "unknown" rfl⟩

/-- C8: the store's size is the number of distinct identifiers stored (for a
well-formed dict state), a fresh store has size 0, putting under an existing
identifier does not change the size, and `put` preserves well-formedness (so
every state reached by `put`s from a fresh store is well-formed). -/
theorem C8_size_counts_distinct_identifiers :
    (∀ (α : Type) (s : Storage α),
      s.WF → Storage.size s = ((s.map Prod.fst).dedup).length)
    ∧ Storage.size (Storage.empty GeodeticLandmark) = 0
    ∧ (∀ (α : Type) (ident : α → String) (s : Storage α) (d : α),
      Storage.containsKey s (ident d) = true →
      Storage.size (Storage.put ident s d).1 = Storage.size s)
    ∧ (∀ (α : Type) (ident : α → String) (s : Storage α) (d : α),
      s.WF → (Storage.put ident s d).1.WF) := by
  refine ⟨?_, rfl, ?_, ?_⟩
  · intro α s h
    unfold Storage.WF at h
    rw [List.Nodup.dedup h, List.length_map]
    rfl
  · intro α ident s d h
    exact Storage.size_put_existing ident s d h
  · intro α ident s d h
    exact Storage.WF_put ident s d h

/-- Concrete two-key storage used by witnesses. -/
def witnessStorePair : Storage GeodeticLandmark := [("a", []), ("b", [])]

/-- Concrete geodetic record with identifier "a" used by witnesses. -/
def witnessRecord : GeodeticLandmark :=
  { identifier := "a"
    latitude_deg := 1
    longitude_deg := 2
    altitude_m := 3
    latitude_uncertainty_deg := 0
    longitude_uncertainty_deg := 0
    altitude_uncertainty_m := 5 }

/-- C8 witness: C8 applied to the concrete two-key storage and a record
under the existing identifier "a". -/
theorem C8_witness :
    Storage.WF witnessStorePair
    ∧ Storage.size witnessStorePair
        = ((witnessStorePair.map Prod.fst).dedup).length
    ∧ Storage.containsKey witnessStorePair
        ((fun l : GeodeticLandmark => l.identifier) witnessRecord) = true
    ∧ Storage.size
        (Storage.put (fun l : GeodeticLandmark => l.identifier)
          witnessStorePair witnessRecord).1 = Storage.size witnessStorePair
    ∧ (Storage.put (fun l : GeodeticLandmark => l.identifier)
        witnessStorePair witnessRecord).1.WF :=
  ⟨by decide,
    C8_size_counts_distinct_identifiers.1 GeodeticLandmark witnessStorePair
      (by decide),
    by decide,
    C8_size_counts_distinct_identifiers.2.2.1 GeodeticLandmark
      (fun l => l.identifier) witnessStorePair witnessRecord (by decide),
    C8_size_counts_distinct_identifiers.2.2.2 GeodeticLandmark
      (fun l => l.identifier) witnessStorePair witnessRecord (by decide)⟩

/-- C9: whenever `localise` returns a record, that record's identifier field
is the queried identifier, for both engines. -/
theorem C9_localise_returns_queried_identifier :
    (∀ (g : GlobalLocalisation) (identifier : String) (r : GeodeticLandmark),
      g.localise identifier = some r → r.identifier = identifier)
    ∧ (∀ (c : CartesianLocalisation) (identifier : String) (r : CartesianLandmark),
      c.localise identifier = some r → r.identifier = identifier) := by
  constructor
  · intro g identifier r h
    by_cases hlen : (g.get_data identifier).length = 0
    · simp [GlobalLocalisation.localise, hlen] at h
    · simp only [GlobalLocalisation.localise, if_neg hlen,
        Option.some.injEq] at h
      rw [← h]
  · intro c identifier r h
    by_cases hlen : (c.get_data identifier).length = 0
    · simp [CartesianLocalisation.localise, hlen] at h
    · simp only [CartesianLocalisation.localise, if_neg hlen,
        Option.some.injEq] at h
      rw [← h]

/-- The estimate that `witnessStore.localise "W"` returns. -/
def witnessEstimate : GeodeticLandmark :=
  { identifier := "W"
    latitude_deg := 1
    longitude_deg := 2
    altitude_m := 3
    latitude_uncertainty_deg := 1 / 1000000
    longitude_uncertainty_deg := 1 / 1000000
    altitude_uncertainty_m := 10 }

/-- C9 witness: C9 applied to the concrete single-record store under "W". -/
theorem C9_witness :
    witnessStore.localise "W" = some witnessEstimate
    ∧ witnessEstimate.identifier = "W" := by
  have h : witnessStore.localise "W" = some witnessEstimate := by
    simp [witnessStore, witnessEstimate, GlobalLocalisation.localise,
      GlobalLocalisation.get_data, GlobalLocalisation.add_data,
      GlobalLocalisation.init, Storage.put, Storage.containsKey,
      Storage.empty, Storage.get]
  exact ⟨h,
    C9_localise_returns_queried_identifier.1 witnessStore "W" witnessEstimate h⟩

/-- C10: `put` mutates only the sequence keyed by the new record's
identifier — every other key's sequence is unchanged — and the query
operations (`get_data`, `localise`, `save`), modelled as state transformers,
return the store state unchanged. -/
theorem C10_put_frame_and_pure_queries :
    (∀ (α : Type) (ident : α → String) (s : Storage α) (d : α) (k : String),
      k ≠ ident d →
      Storage.get (Storage.put ident s d).1 k = Storage.get s k)
    ∧ (∀ (g : GlobalLocalisation) (identifier : String),
      (GlobalLocalisation.get_data_op g identifier).2 = g)
    ∧ (∀ (g : GlobalLocalisation) (identifier : String),
      (GlobalLocalisation.localise_op g identifier).2 = g)
    ∧ (∀ (α : Type) (encode : α → Json) (s : Storage α),
      (Storage.save_op encode s).2 = s) :=
  ⟨fun _ ident s d k h => Storage.get_put_other ident s d k h,
    fun _ _ => rfl, fun _ _ => rfl, fun _ _ _ => rfl⟩

/-- C10 witness: C10's frame property applied at the concrete two-key
storage: putting under "a" leaves the sequence at "b" unchanged. -/
theorem C10_witness :
    "b" ≠ ((fun l : GeodeticLandmark => l.identifier) witnessRecord)
    ∧ Storage.get
        (Storage.put (fun l : GeodeticLandmark => l.identifier)
          witnessStorePair witnessRecord).1 "b"
      = Storage.get witnessStorePair "b" :=
  ⟨by decide,
    C10_put_frame_and_pure_queries.1 GeodeticLandmark
      (fun l => l.identifier) witnessStorePair witnessRecord "b" (by decide)⟩

end Locomapper

